import Mathlib

/-!
Shallow embedding of the SensorStream real-time ingestion/broadcast core
(server/storage.ts, server/routes.ts, server/gemini-service.ts) and proofs
about it.

Modelling conventions:
* JavaScript numbers carried by sensor payloads are modelled as rationals.
* Date values (timestamps) are modelled as natural numbers; every operation
  that calls new Date() takes the current time as an explicit parameter.
* randomUUID() is modelled by a fresh-id counter (nextId) in the store state;
  freshness of generated ids is captured by the StoreWF invariant.
* A JS Map is modelled as an insertion-ordered association list; set replaces
  an existing binding in place, delete removes it.
* The JS falsy coercions written with the or-operator in the source
  (value || null) are modelled exactly: a number is falsy iff it is 0, a
  string is falsy iff it is empty, an object is never falsy.
-/

namespace SensorStream

/-- A 3-axis sensor vector, as the jsonb payloads x/y/z in shared/schema.ts. -/
structure Vec3 where
  x : Rat
  y : Rat
  z : Rat
deriving DecidableEq

/-- Device orientation angles alpha/beta/gamma, as in shared/schema.ts. -/
structure Orient where
  alpha : Rat
  beta : Rat
  gamma : Rat
deriving DecidableEq

/-- A device row, as the devices table in shared/schema.ts: the liveness flag
isActive is stored as the strings "true" / "false" by the server code. -/
structure Device where
  id : String
  name : String
  userAgent : Option String
  lastSeen : Nat
  isActive : String
  batteryLevel : Option Rat
  connectionQuality : String
deriving DecidableEq

/-- Insert shape for a device (insertDeviceSchema: id, name, userAgent;
lastSeen omitted). Extra insert fields are overwritten by createDevice. -/
structure InsertDevice where
  id : String
  name : String
  userAgent : Option String
deriving DecidableEq

/-- A stored sensor reading, as the sensorReadings table in shared/schema.ts.
The server-assigned UUID is modelled as a Nat. -/
structure SensorReading where
  id : Nat
  deviceId : String
  timestamp : Nat
  accelerometer : Option Vec3
  magnetometer : Option Vec3
  orientation : Option Orient
  lightLevel : Option Rat
  airPressure : Option Rat
deriving DecidableEq

/-- Insert shape for a reading (insertSensorReadingSchema: id and timestamp
omitted, deviceId required, sensor fields optional). -/
structure InsertSensorReading where
  deviceId : String
  accelerometer : Option Vec3
  magnetometer : Option Vec3
  orientation : Option Orient
  lightLevel : Option Rat
  airPressure : Option Rat
deriving DecidableEq

/-- The JS coercion value || null applied to an optional number: 0 is falsy,
so a present 0 becomes null. -/
def jsOrNullNum (v : Option Rat) : Option Rat :=
  match v with
  | none => none
  | some x => if x = 0 then none else some x

/-- The JS coercion value || null applied to an optional string: the empty
string is falsy. -/
def jsOrNullStr (v : Option String) : Option String :=
  match v with
  | none => none
  | some s => if s = "" then none else some s

/-- The JS coercion value || null applied to an optional object: every object
is truthy, so a present value passes through unchanged. -/
def jsOrNullObj {α : Type} (v : Option α) : Option α :=
  match v with
  | none => none
  | some o => some o

/-- JS truthiness of a nullable string, as used by the guards
if (deviceId) in routes.ts: null/undefined and "" are falsy. -/
def jsTruthyStr (v : Option String) : Bool :=
  match v with
  | none => false
  | some s => !(s == "")

/-- Lookup in a JS-Map-like association list. -/
def mapGet {β : Type} (k : String) : List (String × β) → Option β
  | [] => none
  | (k', v) :: rest => if k' = k then some v else mapGet k rest

/-- Map.set: replace an existing binding in place, else append at the end. -/
def mapSet {β : Type} (k : String) (v : β) : List (String × β) → List (String × β)
  | [] => [(k, v)]
  | (k', v') :: rest => if k' = k then (k, v) :: rest else (k', v') :: mapSet k v rest

/-- Map.delete: remove the binding for a key, if any. -/
def mapDelete {β : Type} (k : String) : List (String × β) → List (String × β)
  | [] => []
  | (k', v') :: rest => if k' = k then rest else (k', v') :: mapDelete k rest

/-- Lookup in the Nat-keyed readings map. -/
def natGet {β : Type} (k : Nat) : List (Nat × β) → Option β
  | [] => none
  | (k', v) :: rest => if k' = k then some v else natGet k rest

/-- Map.set for the Nat-keyed readings map. -/
def natSet {β : Type} (k : Nat) (v : β) : List (Nat × β) → List (Nat × β)
  | [] => [(k, v)]
  | (k', v') :: rest => if k' = k then (k, v) :: rest else (k', v') :: natSet k v rest

/-- Stable insertion step for a descending sort by a Nat key: the new element
is placed before the first strictly smaller key, so that among equal keys the
earlier element stays first. This models the stable JS Array.sort with
comparator (a, b) => key(b) - key(a). -/
def insertDescBy {α : Type} (key : α → Nat) (a : α) : List α → List α
  | [] => [a]
  | b :: l => if key a < key b then b :: insertDescBy key a l else a :: b :: l

/-- Stable sort, descending by a Nat key (models JS stable Array.sort with a
descending numeric comparator). -/
def sortDescBy {α : Type} (key : α → Nat) : List α → List α
  | [] => []
  | b :: l => insertDescBy key b (sortDescBy key l)

/-- The MemStorage state of server/storage.ts: the two JS Maps plus the
fresh-id counter standing in for randomUUID. -/
structure MemStorage where
  devices : List (String × Device)
  sensorReadings : List (Nat × SensorReading)
  nextId : Nat
deriving DecidableEq

/-- The empty MemStorage, as built by the MemStorage constructor. -/
def memEmpty : MemStorage := ⟨[], [], 0⟩

/-- MemStorage.getDevice. -/
def getDevice (s : MemStorage) (id : String) : Option Device :=
  mapGet id s.devices

/-- MemStorage.getDevices: all devices sorted by lastSeen descending. -/
def getDevices (s : MemStorage) : List Device :=
  sortDescBy (fun d => d.lastSeen) (s.devices.map Prod.snd)

/-- MemStorage.createDevice: builds the device from the insert shape, forcing
lastSeen to now, isActive to "true", batteryLevel to null and
connectionQuality to "good", then Map.set under its id. -/
def createDevice (s : MemStorage) (ins : InsertDevice) (now : Nat) :
    Device × MemStorage :=
  let device : Device :=
    { id := ins.id
      name := ins.name
      userAgent := jsOrNullStr ins.userAgent
      lastSeen := now
      isActive := "true"
      batteryLevel := none
      connectionQuality := "good" }
  (device, { s with devices := mapSet device.id device s.devices })

/-- The Partial update shapes that the server passes to updateDevice:
only isActive and lastSeen ever appear in the call sites. -/
structure DeviceUpdate where
  isActive : Option String
  lastSeen : Option Nat
deriving DecidableEq

/-- The empty update object passed by createSensorReading. -/
def noUpdate : DeviceUpdate := ⟨none, none⟩

/-- MemStorage.updateDevice: undefined when the id is unknown (silent no-op on
the state); otherwise spreads the update over the device and then overwrites
lastSeen with new Date() (so lastSeen is always refreshed, even when the
update carries its own lastSeen). -/
def updateDevice (s : MemStorage) (id : String) (u : DeviceUpdate) (now : Nat) :
    Option Device × MemStorage :=
  match mapGet id s.devices with
  | none => (none, s)
  | some device =>
    let updated : Device :=
      { device with
        isActive := u.isActive.getD device.isActive
        lastSeen := now }
    (some updated, { s with devices := mapSet id updated s.devices })

/-- MemStorage.createSensorReading: assigns a fresh id and timestamp, applies
the value || null coercions to each optional sensor field, Map.sets the
reading, then refreshes the device's lastSeen via updateDevice with an empty
update. No retention cap or eviction appears anywhere. -/
def createSensorReading (s : MemStorage) (ins : InsertSensorReading) (now : Nat) :
    SensorReading × MemStorage :=
  let id := s.nextId
  let reading : SensorReading :=
    { id := id
      deviceId := ins.deviceId
      timestamp := now
      accelerometer := jsOrNullObj ins.accelerometer
      magnetometer := jsOrNullObj ins.magnetometer
      orientation := jsOrNullObj ins.orientation
      lightLevel := jsOrNullNum ins.lightLevel
      airPressure := jsOrNullNum ins.airPressure }
  let s1 : MemStorage :=
    { s with
      sensorReadings := natSet id reading s.sensorReadings
      nextId := s.nextId + 1 }
  let s2 := (updateDevice s1 ins.deviceId noUpdate now).2
  (reading, s2)

/-- The stored readings in insertion order (Array.from(map.values())). -/
def readingsList (s : MemStorage) : List SensorReading :=
  s.sensorReadings.map Prod.snd

/-- MemStorage.getRecentReadings: filter by device id, stable-sort by
timestamp descending, slice to the limit. The source's default limit is 50
(see getRecentReadingsDefault). -/
def getRecentReadings (s : MemStorage) (deviceId : String) (limit : Nat) :
    List SensorReading :=
  ((sortDescBy (fun r => r.timestamp)
      ((readingsList s).filter (fun r => r.deviceId == deviceId)))).take limit

/-- getRecentReadings with the source's default limit of 50. -/
def getRecentReadingsDefault (s : MemStorage) (deviceId : String) :
    List SensorReading :=
  getRecentReadings s deviceId 50

/-- MemStorage.getLatestReading: readings[0] of getRecentReadings(deviceId, 1),
undefined when there is none. -/
def getLatestReading (s : MemStorage) (deviceId : String) : Option SensorReading :=
  (getRecentReadings s deviceId 1).head?

/-- GET /api/devices/:id/latest: answers 404 "No readings found" exactly when
getLatestReading is undefined, else 200 with the reading. -/
def apiGetLatestReading (s : MemStorage) (deviceId : String) :
    Except String SensorReading :=
  match getLatestReading s deviceId with
  | none => Except.error "No readings found"
  | some r => Except.ok r

/-- Store well-formedness: every stored reading key is below the fresh-id
counter, so the next generated id is fresh (the model of randomUUID never
colliding). -/
def StoreWF (s : MemStorage) : Prop :=
  ∀ p ∈ s.sensorReadings, p.1 < s.nextId

instance (s : MemStorage) : Decidable (StoreWF s) := by
  unfold StoreWF
  infer_instance

/-!
The connection layer of server/routes.ts. Each WebSocket connection is
modelled by its id, its closure-local deviceId variable, and whether the
socket is open (readyState === OPEN). The clients Map (deviceId -> socket)
stores connection ids. Broadcast output is returned explicitly as a list of
(message, recipient connection ids) pairs, in emission order; the
setTimeout-deferred broadcastDeviceList calls are included as device-list
events emitted after the synchronous work of the same handler.
-/

/-- Per-connection state: the closure-local deviceId of the connection
handler in routes.ts, and the socket's open flag. -/
structure ConnState where
  connId : Nat
  boundDeviceId : Option String
  isOpen : Bool
deriving DecidableEq

/-- The server state of routes.ts: the storage singleton, the clients Map
from device id to socket, and all connections ever seen. -/
structure World where
  storage : MemStorage
  clients : List (String × Nat)
  conns : List ConnState
deriving DecidableEq

/-- The two broadcast message shapes routes.ts sends to clients. -/
inductive Msg where
  | sensorUpdate (deviceId : String) (reading : SensorReading)
  | deviceList (devices : List Device)
deriving DecidableEq

/-- Whether an outbound message is a sensor-update. -/
def Msg.isSensorUpdate : Msg → Bool
  | Msg.sensorUpdate _ _ => true
  | Msg.deviceList _ => false

/-- One emitted broadcast: the message and the connection ids it was
delivered to. -/
abbrev Emitted := Msg × List Nat

/-- Whether the connection with this id currently has an open socket. -/
def connIsOpen (w : World) (cid : Nat) : Bool :=
  match w.conns.find? (fun c => c.connId == cid) with
  | none => false
  | some c => c.isOpen

/-- The closure-local deviceId of a connection. -/
def boundDeviceIdOf (w : World) (cid : Nat) : Option String :=
  match w.conns.find? (fun c => c.connId == cid) with
  | none => none
  | some c => c.boundDeviceId

/-- The recipients of broadcastToAll: it iterates the clients Map and sends
to each entry whose socket readyState is OPEN. Connections absent from the
clients Map are never sent to. -/
def broadcastRecipients (w : World) : List Nat :=
  (w.clients.filter (fun p => connIsOpen w p.2)).map Prod.snd

/-- The broadcastDeviceList event: a device-list message to the
broadcastToAll recipients. -/
def deviceListEvent (w : World) : Emitted :=
  (Msg.deviceList (getDevices w.storage), broadcastRecipients w)

/-- Rewrite one connection's state in place. -/
def updateConn (w : World) (cid : Nat) (f : ConnState → ConnState) : World :=
  { w with conns := w.conns.map (fun c => if c.connId == cid then f c else c) }

/-- The wss connection handler: admits a new open connection with no device
binding, then (after a timeout) broadcasts the device list. -/
def onConnection (w : World) (cid : Nat) : World × List Emitted :=
  let w' : World := { w with conns := w.conns ++ [⟨cid, none, true⟩] }
  (w', [deviceListEvent w'])

/-- Sensor payload of a streaming sensor-data message (message.data: the
reading fields minus the device id, which is taken from the binding). -/
structure SensorData where
  accelerometer : Option Vec3
  magnetometer : Option Vec3
  orientation : Option Orient
  lightLevel : Option Rat
  airPressure : Option Rat
deriving DecidableEq

/-- Spreading a sensor payload under a device id, as the object literal
passed to storage.createSensorReading in the streaming handler. -/
def withDevice (d : String) (p : SensorData) : InsertSensorReading :=
  { deviceId := d
    accelerometer := p.accelerometer
    magnetometer := p.magnetometer
    orientation := p.orientation
    lightLevel := p.lightLevel
    airPressure := p.airPressure }

/-- The register message handler: stores message.deviceId in the connection's
closure variable; when it is truthy, Map.sets the clients binding (last
registration wins) and, when the device record exists, marks it active; then
broadcasts the device list. -/
def onRegister (w : World) (cid : Nat) (did : Option String) (now : Nat) :
    World × List Emitted :=
  let w1 := updateConn w cid (fun c => { c with boundDeviceId := did })
  let w2 :=
    if jsTruthyStr did then
      let d := did.getD ""
      let wc : World := { w1 with clients := mapSet d cid w1.clients }
      match getDevice wc.storage d with
      | some _ =>
        { wc with storage := (updateDevice wc.storage d ⟨some "true", none⟩ now).2 }
      | none => wc
    else w1
  (w2, [deviceListEvent w2])

/-- The sensor-data message handler: guarded by the truthiness of the
closure-local deviceId; marks the device active, appends the reading via
createSensorReading, broadcasts exactly one sensor-update to all clients-Map
entries with open sockets, then (after a timeout) broadcasts the device
list. An unbound connection's sample is dropped with no effect. -/
def onSensorData (w : World) (cid : Nat) (data : SensorData) (now : Nat) :
    World × List Emitted :=
  let bound := boundDeviceIdOf w cid
  if jsTruthyStr bound then
    let d := bound.getD ""
    let st1 := (updateDevice w.storage d ⟨some "true", some now⟩ now).2
    let pr := createSensorReading st1 (withDevice d data) now
    let w2 : World := { w with storage := pr.2 }
    (w2, [(Msg.sensorUpdate d pr.1, broadcastRecipients w2), deviceListEvent w2])
  else (w, [])

/-- The close handler: the socket is closed; if the closure-local deviceId is
truthy, the clients binding under that id is deleted (whatever socket it
currently points to) and the device is marked inactive, then the device list
is broadcast. -/
def onClose (w : World) (cid : Nat) (now : Nat) : World × List Emitted :=
  let bound := boundDeviceIdOf w cid
  let w1 := updateConn w cid (fun c => { c with isOpen := false })
  if jsTruthyStr bound then
    let d := bound.getD ""
    let w2 : World :=
      { w1 with
        clients := mapDelete d w1.clients
        storage := (updateDevice w1.storage d ⟨some "false", none⟩ now).2 }
    (w2, [deviceListEvent w2])
  else (w1, [])

/-- POST /api/sensor-readings (the one-shot fallback ingestion path): parses
the body into the insert shape, appends via the same createSensorReading,
broadcasts one sensor-update to all WebSocket clients, and responds with the
stored reading. It performs no device-liveness update of its own. -/
def postSensorReading (w : World) (ins : InsertSensorReading) (now : Nat) :
    World × List Emitted × SensorReading :=
  let pr := createSensorReading w.storage ins now
  let w2 : World := { w with storage := pr.2 }
  (w2, [(Msg.sensorUpdate pr.1.deviceId pr.1, broadcastRecipients w2)], pr.1)

/-- POST /api/devices: validates the insert shape, delegates to
createDevice, broadcasts the device list, responds with the device. -/
def postDevices (w : World) (ins : InsertDevice) (now : Nat) :
    World × List Emitted × Device :=
  let pr := createDevice w.storage ins now
  let w2 : World := { w with storage := pr.2 }
  (w2, [deviceListEvent w2], pr.1)

/-!
The AI analysis collaborator of server/gemini-service.ts. The Gemini call
itself is an external effect: it is modelled as an input of type
Except Unit RawAnalysis, error standing for any throw up to and including
the JSON parse (network failure, empty response text, malformed JSON), and
RawAnalysis standing for the parsed JSON object. The prompt-building helpers
(summarizeSensorData, buildLearningContext) only shape the request string and
never influence the returned value, so the readings and historical
predictions are carried as parameters but do not steer the result.
-/

/-- A historical location prediction as read by buildLearningContext. -/
structure LocationPrediction where
  deviceId : String
  prediction : String
  confidence : Rat
  userConfirmation : Option String
  actualLocation : Option String
deriving DecidableEq

/-- The validated analysis result returned to callers. -/
structure LocationAnalysis where
  prediction : String
  confidence : Rat
  reasoning : String
deriving DecidableEq

/-- The parsed JSON shape of a Gemini reply: confidence is none when the
field is not a number (the typeof check in the source). -/
structure RawAnalysis where
  prediction : String
  confidence : Option Rat
  reasoning : String
deriving DecidableEq

/-- The catch-branch fallback of analyzeLocationFromSensorData. -/
def fallbackAnalysis : LocationAnalysis :=
  { prediction := "indoor"
    confidence := 1/10
    reasoning := "Unable to analyze sensor data reliably" }

/-- analyzeLocationFromSensorData: on any failure of the AI call, or a reply
whose prediction is not indoor/outdoor, or whose confidence is not a number
in [0,1], the thrown error is caught and the fallback is returned; otherwise
the validated reply is returned as-is. -/
def analyzeLocationFromSensorData (recentReadings : List SensorReading)
    (historicalPredictions : List LocationPrediction)
    (ai : Except Unit RawAnalysis) : LocationAnalysis :=
  match ai with
  | Except.error _ => fallbackAnalysis
  | Except.ok raw =>
    if ¬ (raw.prediction = "indoor" ∨ raw.prediction = "outdoor") then
      fallbackAnalysis
    else
      match raw.confidence with
      | none => fallbackAnalysis
      | some c =>
        if c < 0 ∨ c > 1 then fallbackAnalysis
        else { prediction := raw.prediction, confidence := c, reasoning := raw.reasoning }

/-- The validation the source applies to a parsed Gemini reply: the
prediction must be the string indoor or outdoor and the confidence must be a
number within [0,1]. -/
def rawValid (raw : RawAnalysis) : Prop :=
  (raw.prediction = "indoor" ∨ raw.prediction = "outdoor") ∧
  ∃ c, raw.confidence = some c ∧ 0 ≤ c ∧ c ≤ 1

/-!
Helper definitions shared by several concrete scenarios.
-/

/-- A sensor payload with every optional sensor absent. -/
def sdNone : SensorData := ⟨none, none, none, none, none⟩

/-- An insert shape with every optional sensor absent. -/
def plainIns (d : String) : InsertSensorReading := ⟨d, none, none, none, none, none⟩

/-- The sensor payload carried by an insert shape (the reading fields minus
the device id). -/
def dataOf (ins : InsertSensorReading) : SensorData :=
  ⟨ins.accelerometer, ins.magnetometer, ins.orientation, ins.lightLevel, ins.airPressure⟩

/-- n streaming appends for one device into an empty store, at times 1..n. -/
def appendSamples (d : String) : Nat → MemStorage
  | 0 => memEmpty
  | n+1 => (createSensorReading (appendSamples d n) (plainIns d) (n+1)).2

/-- A world whose storage knows device "A" and which has no connections yet. -/
def w0 : World := ⟨(createDevice memEmpty ⟨"A", "Phone", none⟩ 0).2, [], []⟩

/-- The §8 double-registration scenario: connection 1 registers "A",
connection 2 registers "A", then connection 1 closes while 2 is still open. -/
def w5 : World :=
  let w1 := (onConnection w0 1).1
  let w2 := (onRegister w1 1 (some "A") 1).1
  let w3 := (onConnection w2 2).1
  let w4 := (onRegister w3 2 (some "A") 2).1
  (onClose w4 1 3).1

/-- Connection 1 registered as "A"; connection 2 open but never registered. -/
def wc1 : World :=
  let wa := (onConnection w0 1).1
  let wb := (onRegister wa 1 (some "A") 1).1
  (onConnection wb 2).1

/-- A world whose device "A" is currently marked inactive, with connection 1
bound and registered as "A". -/
def wC4 : World :=
  ⟨⟨[("A", ⟨"A", "Phone", none, 0, "false", none, "good"⟩)], [], 0⟩,
   [("A", 1)], [⟨1, some "A", true⟩]⟩

/-!
General lemmas about the map and sort building blocks.
-/

theorem mapGet_mapSet_self {β : Type} (k : String) (v : β) (l : List (String × β)) :
    mapGet k (mapSet k v l) = some v := by
  induction l with
  | nil => simp [mapGet, mapSet]
  | cons p rest ih =>
    by_cases h : p.1 = k
    · simp [mapSet, h, mapGet]
    · cases p with
      | mk k' v' => simp only at h; simp [mapSet, h, mapGet, ih]

theorem length_mapSet_of_mem {β : Type} (k : String) (v v' : β) (l : List (String × β))
    (h : mapGet k l = some v) : (mapSet k v' l).length = l.length := by
  induction l with
  | nil => simp [mapGet] at h
  | cons p rest ih =>
    cases p with
    | mk k' w =>
      by_cases hk : k' = k
      · simp [mapSet, hk]
      · simp only [mapGet, hk, if_false] at h
        simp [mapSet, hk, ih h]

theorem natSet_of_fresh {β : Type} (k : Nat) (v : β) (l : List (Nat × β))
    (h : ∀ p ∈ l, p.1 ≠ k) : natSet k v l = l ++ [(k, v)] := by
  induction l with
  | nil => simp [natSet]
  | cons p rest ih =>
    have hp : p.1 ≠ k := h p (List.mem_cons_self p rest)
    cases p with
    | mk k' w =>
      simp only at hp
      simp [natSet, hp, ih (fun q hq => h q (List.mem_cons_of_mem _ hq))]

theorem self_mem_natSet {β : Type} (k : Nat) (v : β) (l : List (Nat × β)) :
    v ∈ (natSet k v l).map Prod.snd := by
  induction l with
  | nil => simp [natSet]
  | cons p rest ih =>
    cases p with
    | mk k' w =>
      by_cases hk : k' = k
      · simp [natSet, hk]
      · simp only [natSet, hk, if_false, List.map_cons, List.mem_cons]
        exact Or.inr ih

theorem mem_insertDescBy {α : Type} (key : α → Nat) (a x : α) (l : List α) :
    x ∈ insertDescBy key a l ↔ x = a ∨ x ∈ l := by
  induction l with
  | nil => simp [insertDescBy]
  | cons b t ih =>
    by_cases hk : key a < key b
    · simp only [insertDescBy, if_pos hk, List.mem_cons, ih]
      tauto
    · simp [insertDescBy, if_neg hk]

theorem length_insertDescBy {α : Type} (key : α → Nat) (a : α) (l : List α) :
    (insertDescBy key a l).length = l.length + 1 := by
  induction l with
  | nil => simp [insertDescBy]
  | cons b t ih =>
    by_cases hk : key a < key b
    · simp [insertDescBy, if_pos hk, ih]
    · simp [insertDescBy, if_neg hk]

theorem pairwise_insertDescBy {α : Type} (key : α → Nat) (a : α) (l : List α)
    (h : l.Pairwise (fun x y => key y ≤ key x)) :
    (insertDescBy key a l).Pairwise (fun x y => key y ≤ key x) := by
  induction l with
  | nil => simp [insertDescBy]
  | cons b t ih =>
    rcases List.pairwise_cons.mp h with ⟨hb, ht⟩
    by_cases hk : key a < key b
    · simp only [insertDescBy, if_pos hk]
      refine List.pairwise_cons.mpr ⟨?_, ih ht⟩
      intro x hx
      rcases (mem_insertDescBy key a x t).mp hx with rfl | hxt
      · exact Nat.le_of_lt hk
      · exact hb x hxt
    · simp only [insertDescBy, if_neg hk]
      refine List.pairwise_cons.mpr ⟨?_, h⟩
      intro x hx
      rcases List.mem_cons.mp hx with rfl | hxt
      · exact Nat.le_of_not_lt hk
      · exact Nat.le_trans (hb x hxt) (Nat.le_of_not_lt hk)

theorem mem_sortDescBy {α : Type} (key : α → Nat) (x : α) (l : List α) :
    x ∈ sortDescBy key l ↔ x ∈ l := by
  induction l with
  | nil => simp [sortDescBy]
  | cons b t ih =>
    simp only [sortDescBy, mem_insertDescBy, List.mem_cons, ih]

theorem length_sortDescBy {α : Type} (key : α → Nat) (l : List α) :
    (sortDescBy key l).length = l.length := by
  induction l with
  | nil => simp [sortDescBy]
  | cons b t ih =>
    simp [sortDescBy, length_insertDescBy, ih]

theorem pairwise_sortDescBy {α : Type} (key : α → Nat) (l : List α) :
    (sortDescBy key l).Pairwise (fun x y => key y ≤ key x) := by
  induction l with
  | nil => simp [sortDescBy]
  | cons b t ih => exact pairwise_insertDescBy key b (sortDescBy key t) ih

theorem take_one_eq_nil_iff {α : Type} (l : List α) : l.take 1 = [] ↔ l = [] := by
  cases l <;> simp

theorem sortDescBy_eq_nil_iff {α : Type} (key : α → Nat) (l : List α) :
    sortDescBy key l = [] ↔ l = [] := by
  constructor
  · intro h
    have := length_sortDescBy key l
    rw [h] at this
    exact List.length_eq_zero.mp this.symm
  · intro h
    subst h
    rfl

/-!
Small structural lemmas about the storage operations.
-/

theorem updateDevice_sensorReadings (s : MemStorage) (id : String) (u : DeviceUpdate)
    (now : Nat) : ((updateDevice s id u now).2).sensorReadings = s.sensorReadings := by
  unfold updateDevice
  cases mapGet id s.devices <;> rfl

theorem updateDevice_nextId (s : MemStorage) (id : String) (u : DeviceUpdate)
    (now : Nat) : ((updateDevice s id u now).2).nextId = s.nextId := by
  unfold updateDevice
  cases mapGet id s.devices <;> rfl

theorem updateDevice_of_absent (s : MemStorage) (id : String) (u : DeviceUpdate)
    (now : Nat) (h : mapGet id s.devices = none) : (updateDevice s id u now).2 = s := by
  unfold updateDevice
  rw [h]

theorem createSensorReading_self_mem (s : MemStorage) (ins : InsertSensorReading)
    (now : Nat) :
    (createSensorReading s ins now).1 ∈ readingsList (createSensorReading s ins now).2 := by
  unfold createSensorReading readingsList
  simp only [updateDevice_sensorReadings]
  exact self_mem_natSet _ _ _

theorem createSensorReading_unknown_devices (s : MemStorage) (ins : InsertSensorReading)
    (now : Nat) (h : getDevice s ins.deviceId = none) :
    (createSensorReading s ins now).2.devices = s.devices := by
  unfold createSensorReading
  simp only
  rw [updateDevice_of_absent]
  exact h

theorem createSensorReading_fst (s : MemStorage) (ins : InsertSensorReading) (now : Nat) :
    (createSensorReading s ins now).1 =
      { id := s.nextId
        deviceId := ins.deviceId
        timestamp := now
        accelerometer := jsOrNullObj ins.accelerometer
        magnetometer := jsOrNullObj ins.magnetometer
        orientation := jsOrNullObj ins.orientation
        lightLevel := jsOrNullNum ins.lightLevel
        airPressure := jsOrNullNum ins.airPressure } := rfl

theorem createSensorReading_sensorReadings (s : MemStorage) (ins : InsertSensorReading)
    (now : Nat) :
    ((createSensorReading s ins now).2).sensorReadings
      = natSet s.nextId (createSensorReading s ins now).1 s.sensorReadings := by
  unfold createSensorReading
  simp only [updateDevice_sensorReadings]

theorem createSensorReading_nextId (s : MemStorage) (ins : InsertSensorReading)
    (now : Nat) : ((createSensorReading s ins now).2).nextId = s.nextId + 1 := by
  unfold createSensorReading
  simp only [updateDevice_nextId]

theorem updateDevice_devices_expr (s : MemStorage) (id : String) (u : DeviceUpdate)
    (now : Nat) :
    ((updateDevice s id u now).2).devices
      = (match mapGet id s.devices with
         | none => s.devices
         | some dev =>
             mapSet id ({ dev with isActive := u.isActive.getD dev.isActive, lastSeen := now })
               s.devices) := by
  unfold updateDevice
  cases mapGet id s.devices <;> rfl

theorem createSensorReading_devices (s : MemStorage) (ins : InsertSensorReading)
    (now : Nat) :
    ((createSensorReading s ins now).2).devices
      = ((updateDevice s ins.deviceId noUpdate now).2).devices := by
  unfold createSensorReading
  simp only [updateDevice_devices_expr]

theorem updateDevice_found (s : MemStorage) (id : String) (u : DeviceUpdate) (now : Nat)
    (dev : Device) (h : mapGet id s.devices = some dev) :
    (updateDevice s id u now).2
      = { s with devices :=
            (mapSet id ({ dev with isActive := u.isActive.getD dev.isActive, lastSeen := now })
              s.devices) } := by
  unfold updateDevice
  rw [h]

theorem updateDevice_devices_found (s : MemStorage) (id : String) (u : DeviceUpdate)
    (now : Nat) (dev : Device) (h : mapGet id s.devices = some dev) :
    ((updateDevice s id u now).2).devices
      = mapSet id ({ dev with isActive := u.isActive.getD dev.isActive, lastSeen := now })
          s.devices := by
  rw [updateDevice_found s id u now dev h]

/-!
Claim theorems.
-/

set_option maxRecDepth 40000 in
/-- C2 counterexample: the claimed retention cap does not exist. After 60
appends for device "A", a retrieval with limit 100 returns all 60 readings
(not 50), and the oldest of the 60 (timestamp 1) is still present (not
absent). -/
theorem C2_counterexample :
    (getRecentReadings (appendSamples "A" 60) "A" 100).length = 60 ∧
    ∃ r ∈ getRecentReadings (appendSamples "A" 60) "A" 100, r.timestamp = 1 := by
  constructor
  · decide
  · decide

/-- C2 (amended): createSensorReading never evicts: on a well-formed store the
append leaves every previously stored reading in place and adds exactly the
new one at the end of insertion order, and well-formedness is preserved. -/
theorem C2_no_eviction (s : MemStorage) (ins : InsertSensorReading) (now : Nat)
    (h : StoreWF s) :
    readingsList (createSensorReading s ins now).2
      = readingsList s ++ [(createSensorReading s ins now).1] ∧
    StoreWF (createSensorReading s ins now).2 := by
  have hfresh : ∀ p ∈ s.sensorReadings, p.1 ≠ s.nextId := by
    intro p hp
    exact Nat.ne_of_lt (h p hp)
  unfold createSensorReading
  simp only [updateDevice_sensorReadings, updateDevice_nextId, readingsList]
  constructor
  · rw [natSet_of_fresh _ _ _ hfresh]
    simp
  · intro p hp
    simp only [StoreWF, updateDevice_sensorReadings, updateDevice_nextId] at hp ⊢
    rw [natSet_of_fresh _ _ _ hfresh] at hp
    rcases List.mem_append.mp hp with hold | hnew
    · exact Nat.lt_succ_of_lt (h p hold)
    · simp only [List.mem_singleton] at hnew
      subst hnew
      exact Nat.lt_succ_self _

/-- C2 witness: the amended no-eviction theorem applied to the empty store. -/
theorem C2_witness :
    readingsList (createSensorReading memEmpty (plainIns "A") 1).2
      = readingsList memEmpty ++ [(createSensorReading memEmpty (plainIns "A") 1).1] :=
  (C2_no_eviction memEmpty (plainIns "A") 1 (by decide)).1

/-- C5 counterexample: appending a reading for unknown device "B" neither
fails nor auto-creates a device record: the reading is stored while no
Device record for "B" exists. -/
theorem C5_counterexample :
    (createSensorReading memEmpty (⟨"B", none, none, none, some 450, none⟩) 7).1
      ∈ readingsList (createSensorReading memEmpty (⟨"B", none, none, none, some 450, none⟩) 7).2 ∧
    getDevice (createSensorReading memEmpty (⟨"B", none, none, none, some 450, none⟩) 7).2 "B"
      = none := by
  constructor
  · decide
  · decide

/-- C5 (amended): on both ingestion paths, appending a reading whose device
id has no Device record succeeds, stores the reading, reports no error, and
creates no device record (the registry is untouched). -/
theorem C5_stores_without_device (w : World) (ins : InsertSensorReading) (now : Nat)
    (h : getDevice w.storage ins.deviceId = none) :
    (postSensorReading w ins now).2.2
      ∈ readingsList (postSensorReading w ins now).1.storage ∧
    (postSensorReading w ins now).1.storage.devices = w.storage.devices ∧
    getDevice (postSensorReading w ins now).1.storage ins.deviceId = none ∧
    (∀ cid, boundDeviceIdOf w cid = some ins.deviceId → (ins.deviceId == "") = false →
      (onSensorData w cid (dataOf ins) now).1.storage.devices = w.storage.devices) := by
  refine ⟨?_, ?_, ?_, ?_⟩
  · exact createSensorReading_self_mem w.storage ins now
  · exact createSensorReading_unknown_devices w.storage ins now h
  · show getDevice (createSensorReading w.storage ins now).2 ins.deviceId = none
    unfold getDevice
    rw [createSensorReading_unknown_devices w.storage ins now h]
    exact h
  · intro cid hb hne
    unfold onSensorData
    rw [hb]
    simp only [jsTruthyStr, hne, Bool.not_false, if_pos, Option.getD_some]
    have h1 : (updateDevice w.storage ins.deviceId ⟨some "true", some now⟩ now).2
        = w.storage := updateDevice_of_absent _ _ _ _ h
    rw [h1]
    exact createSensorReading_unknown_devices w.storage (withDevice ins.deviceId (dataOf ins)) now h

/-- C5 witness: the amended theorem applied at unknown device "B" on an
empty-storage world with connection 1 bound to "B". -/
theorem C5_witness :
    (postSensorReading (⟨memEmpty, [("B", 1)], [⟨1, some "B", true⟩]⟩ : World)
        (plainIns "B") 7).1.storage.devices = memEmpty.devices :=
  (C5_stores_without_device ⟨memEmpty, [("B", 1)], [⟨1, some "B", true⟩]⟩
    (plainIns "B") 7 (by decide)).2.1

/-- C6 counterexample: re-creating existing device "A", which currently has
battery level 80 and connection quality "poor", resets the stored battery
level to null and the quality to "good" instead of preserving them. -/
theorem C6_counterexample :
    (getDevice (createDevice ⟨[("A", ⟨"A", "Phone", none, 0, "true", some 80, "poor"⟩)], [], 0⟩
        ⟨"A", "Phone2", none⟩ 9).2 "A").map Device.batteryLevel = some none ∧
    (getDevice (createDevice ⟨[("A", ⟨"A", "Phone", none, 0, "true", some 80, "poor"⟩)], [], 0⟩
        ⟨"A", "Phone2", none⟩ 9).2 "A").map Device.connectionQuality = some "good" ∧
    (⟨"A", "Phone", none, 0, "true", some 80, "poor"⟩ : Device).batteryLevel = some 80 ∧
    (⟨"A", "Phone", none, 0, "true", some 80, "poor"⟩ : Device).connectionQuality = "poor" := by
  refine ⟨?_, ?_, ?_, ?_⟩ <;> decide

/-- C6 (amended): a second create for an existing id succeeds without error
and without duplicating the entry, updates name, descriptor and last-seen,
but resets the battery level to unset and the connection quality to "good"
rather than preserving the previously stored values. -/
theorem C6_upsert_resets (s : MemStorage) (ins : InsertDevice) (now : Nat) (dev : Device)
    (h : getDevice s ins.id = some dev) :
    getDevice (createDevice s ins now).2 ins.id = some (createDevice s ins now).1 ∧
    (createDevice s ins now).1.name = ins.name ∧
    (createDevice s ins now).1.userAgent = jsOrNullStr ins.userAgent ∧
    (createDevice s ins now).1.lastSeen = now ∧
    (createDevice s ins now).1.isActive = "true" ∧
    (createDevice s ins now).1.batteryLevel = none ∧
    (createDevice s ins now).1.connectionQuality = "good" ∧
    ((createDevice s ins now).2).devices.length = s.devices.length := by
  refine ⟨?_, rfl, rfl, rfl, rfl, rfl, rfl, ?_⟩
  · show getDevice { s with devices := mapSet ins.id _ s.devices } ins.id = _
    unfold getDevice
    exact mapGet_mapSet_self _ _ _
  · exact length_mapSet_of_mem ins.id dev _ s.devices h

/-- C6 witness: the amended upsert theorem applied to a one-device store. -/
theorem C6_witness :
    (createDevice ⟨[("A", ⟨"A", "Phone", none, 0, "true", some 80, "poor"⟩)], [], 0⟩
        ⟨"A", "Phone2", none⟩ 9).1.batteryLevel = none :=
  (C6_upsert_resets ⟨[("A", ⟨"A", "Phone", none, 0, "true", some 80, "poor"⟩)], [], 0⟩
    ⟨"A", "Phone2", none⟩ 9 ⟨"A", "Phone", none, 0, "true", some 80, "poor"⟩
    (by decide)).2.2.2.2.2.1

/-- C7: the code at the failing input. A payload supplying 0 for lightLevel
and airPressure is stored with both fields null (the value-or-null coercion
treats the number 0 as falsy), not as 0 — while an all-zero accelerometer
object and a nonzero scalar pass through unchanged. -/
theorem C7_zero_scalar_stored_as_null :
    (createSensorReading memEmpty ⟨"A", some ⟨0, 0, 0⟩, none, none, some 0, some 0⟩ 1).1.lightLevel
      = none ∧
    (createSensorReading memEmpty ⟨"A", some ⟨0, 0, 0⟩, none, none, some 0, some 0⟩ 1).1.airPressure
      = none ∧
    (createSensorReading memEmpty ⟨"A", some ⟨0, 0, 0⟩, none, none, some 0, some 0⟩ 1).1.accelerometer
      = some ⟨0, 0, 0⟩ ∧
    (createSensorReading memEmpty ⟨"A", none, none, none, some 450, none⟩ 1).1.lightLevel
      = some 450 := by
  refine ⟨?_, ?_, ?_, ?_⟩ <;> decide

/-- C1 counterexample: in the world wc1, connection 2 is open and has never
registered (it appears under no clients-Map entry); ingesting a sample from
registered connection 1 produces exactly one sample-update, but its
recipient list is [1] — the open unregistered observer 2 does not receive
it, contrary to the claim. -/
theorem C1_counterexample :
    connIsOpen wc1 2 = true ∧
    (∀ p ∈ wc1.clients, p.2 ≠ 2) ∧
    ((onSensorData wc1 1 sdNone 5).2.filter (fun e => e.1.isSensorUpdate)).length = 1 ∧
    (∀ e ∈ (onSensorData wc1 1 sdNone 5).2, e.1.isSensorUpdate = true →
      e.2 = [1] ∧ 2 ∉ e.2) := by
  refine ⟨by decide, by decide, by decide, by decide⟩

/-- C1 (amended): an accepted streaming sample produces exactly one
sample-update broadcast, and it is delivered exactly to the connections
currently registered in the clients Map whose socket is open — a connection
that has never registered as a device is not a recipient. -/
theorem C1_broadcast_only_registered (w : World) (cid : Nat) (data : SensorData)
    (now : Nat) (h : jsTruthyStr (boundDeviceIdOf w cid) = true) :
    ((onSensorData w cid data now).2.filter (fun e => e.1.isSensorUpdate)).length = 1 ∧
    (onSensorData w cid data now).1.clients = w.clients ∧
    (onSensorData w cid data now).1.conns = w.conns ∧
    (∀ e ∈ (onSensorData w cid data now).2, e.1.isSensorUpdate = true →
      ∀ c : Nat, c ∈ e.2 ↔ ∃ d', (d', c) ∈ w.clients ∧ connIsOpen w c = true) := by
  unfold onSensorData
  rw [if_pos h]
  refine ⟨rfl, rfl, rfl, ?_⟩
  intro e he hsu c
  simp only [deviceListEvent, List.mem_cons, List.not_mem_nil, or_false] at he
  rcases he with rfl | rfl
  · show c ∈ broadcastRecipients _ ↔ _
    unfold broadcastRecipients
    constructor
    · intro hc
      rcases List.mem_map.mp hc with ⟨p, hp, hpc⟩
      rcases List.mem_filter.mp hp with ⟨hmem, hopen⟩
      refine ⟨p.1, ?_, ?_⟩
      · rw [← hpc, Prod.mk.eta]
        exact hmem
      · rw [← hpc]
        exact hopen
    · rintro ⟨d', hmem, hopen⟩
      exact List.mem_map.mpr ⟨(d', c), List.mem_filter.mpr ⟨hmem, hopen⟩, rfl⟩
  · simp [Msg.isSensorUpdate] at hsu

/-- C1 witness: the amended theorem instantiated at the world wc1 with the
sample coming from the registered connection 1. -/
theorem C1_witness :
    ((onSensorData wc1 1 sdNone 5).2.filter (fun e => e.1.isSensorUpdate)).length = 1 :=
  (C1_broadcast_only_registered wc1 1 sdNone 5 (by decide)).1

/-- C3: the code at the failing input. Device "A" exists; connection 1
registers "A", then connection 2 registers "A" (its binding wins); closing
the now-orphaned connection 1 flips "A" to inactive and deletes the
clients-Map binding even though connection 2 is still open — the liveness
flag does not reflect the latest registered connection. -/
theorem C3_stale_close_deactivates :
    (getDevice w5.storage "A").map Device.isActive = some "false" ∧
    connIsOpen w5 2 = true ∧
    mapGet "A" w5.clients = none := by
  refine ⟨by decide, by decide, by decide⟩

/-- C4 counterexample: with device "A" marked inactive, streaming ingestion
flips it to active while fallback REST ingestion of the same payload leaves
it inactive — the two paths do not leave the Registry in the same state. -/
theorem C4_counterexample :
    (getDevice (onSensorData wC4 1 sdNone 5).1.storage "A").map Device.isActive
      = some "true" ∧
    (getDevice (postSensorReading wC4 (withDevice "A" sdNone) 5).1.storage "A").map
        Device.isActive = some "false" ∧
    (onSensorData wC4 1 sdNone 5).1.storage
      ≠ (postSensorReading wC4 (withDevice "A" sdNone) 5).1.storage := by
  refine ⟨by decide, by decide, by decide⟩

/-- C4 (amended): both ingestion paths append through the same
createSensorReading routine — they store the identical reading, leave
identical reading stores and id counters, and emit identical sample-update
messages — but they diverge on device liveness: the streaming path marks the
device active while the fallback path leaves the stored liveness flag
unchanged. -/
theorem C4_paths_agree_except_liveness (w : World) (cid : Nat) (data : SensorData)
    (d : String) (now : Nat) (dev : Device)
    (hb : boundDeviceIdOf w cid = some d) (hd : (d == "") = false)
    (hdev : getDevice w.storage d = some dev) :
    (onSensorData w cid data now).1.storage.sensorReadings
      = (postSensorReading w (withDevice d data) now).1.storage.sensorReadings ∧
    (onSensorData w cid data now).1.storage.nextId
      = (postSensorReading w (withDevice d data) now).1.storage.nextId ∧
    ((onSensorData w cid data now).2.filterMap
        (fun e => if e.1.isSensorUpdate then some e.1 else none))
      = ((postSensorReading w (withDevice d data) now).2.1.filterMap
        (fun e => if e.1.isSensorUpdate then some e.1 else none)) ∧
    (getDevice (onSensorData w cid data now).1.storage d).map Device.isActive
      = some "true" ∧
    (getDevice (postSensorReading w (withDevice d data) now).1.storage d).map
        Device.isActive = some dev.isActive := by
  have htruthy : jsTruthyStr (boundDeviceIdOf w cid) = true := by
    rw [hb]
    simp [jsTruthyStr, hd]
  have hst1 : (updateDevice w.storage d ⟨some "true", some now⟩ now).2
      = { w.storage with devices :=
            (mapSet d ({ dev with isActive := "true", lastSeen := now }) w.storage.devices) } :=
    updateDevice_found w.storage d ⟨some "true", some now⟩ now dev hdev
  unfold onSensorData postSensorReading
  rw [if_pos htruthy, hb]
  simp only [Option.getD_some, hst1]
  refine ⟨?_, ?_, ?_, ?_, ?_⟩
  · simp [createSensorReading_sensorReadings, createSensorReading_fst]
  · simp [createSensorReading_nextId]
  · simp [Msg.isSensorUpdate, createSensorReading_fst, withDevice, deviceListEvent]
  · unfold getDevice
    rw [createSensorReading_devices]
    simp only [withDevice]
    rw [updateDevice_devices_expr]
    simp only [mapGet_mapSet_self]
    rfl
  · unfold getDevice
    rw [createSensorReading_devices]
    simp only [withDevice]
    rw [updateDevice_devices_expr]
    rw [show mapGet d w.storage.devices = some dev from hdev]
    simp only [mapGet_mapSet_self]
    rfl

/-- C4 witness: the amended two-path theorem instantiated at the concrete
world wC4 (device "A" inactive, connection 1 registered as "A"). -/
theorem C4_witness :
    (onSensorData wC4 1 sdNone 5).1.storage.sensorReadings
      = (postSensorReading wC4 (withDevice "A" sdNone) 5).1.storage.sensorReadings :=
  (C4_paths_agree_except_liveness wC4 1 sdNone "A" 5
    ⟨"A", "Phone", none, 0, "false", none, "good"⟩ (by decide) (by decide) (by decide)).1

/-- C8: getRecentReadings returns at most limit readings, all belonging to
the requested device, sorted newest-first by timestamp; it returns the empty
list (not an error) when the device has no readings; and the default limit
is 50. -/
theorem C8_recent_readings_spec (s : MemStorage) (d : String) (k : Nat) :
    (getRecentReadings s d k).length ≤ k ∧
    (∀ r ∈ getRecentReadings s d k, r.deviceId = d) ∧
    (getRecentReadings s d k).Pairwise (fun a b => b.timestamp ≤ a.timestamp) ∧
    ((∀ r ∈ readingsList s, r.deviceId ≠ d) → getRecentReadings s d k = []) ∧
    getRecentReadingsDefault s d = getRecentReadings s d 50 := by
  refine ⟨?_, ?_, ?_, ?_, rfl⟩
  · unfold getRecentReadings
    rw [List.length_take]
    exact min_le_left _ _
  · intro r hr
    unfold getRecentReadings at hr
    have h1 := List.mem_of_mem_take hr
    have h2 := (mem_sortDescBy _ _ _).mp h1
    have h3 := (List.mem_filter.mp h2).2
    exact eq_of_beq h3
  · unfold getRecentReadings
    exact List.Pairwise.sublist (List.take_sublist _ _) (pairwise_sortDescBy _ _)
  · intro h
    unfold getRecentReadings
    have hfil : (readingsList s).filter (fun r => r.deviceId == d) = [] := by
      rw [List.filter_eq_nil_iff]
      intro a ha hbeq
      exact h a ha (eq_of_beq hbeq)
    rw [hfil]
    simp [sortDescBy]

/-- C8 witness: the retrieval-contract theorem instantiated at a one-reading
store with limit 2. -/
theorem C8_witness :
    (getRecentReadings (createSensorReading memEmpty (plainIns "A") 3).2 "A" 2).length ≤ 2 :=
  (C8_recent_readings_spec (createSensorReading memEmpty (plainIns "A") 3).2 "A" 2).1

/-- C9: the analysis collaborator never throws: its confidence always lies
in [0,1]; a failed AI call yields the fallback analysis, as does a reply that
fails validation; and the fallback itself is a well-formed analysis with
default label "indoor", near-zero confidence 1/10 and a nonempty reasoning
string. -/
theorem C9_analysis_total_and_bounded (recent : List SensorReading)
    (hist : List LocationPrediction) (ai : Except Unit RawAnalysis) :
    0 ≤ (analyzeLocationFromSensorData recent hist ai).confidence ∧
    (analyzeLocationFromSensorData recent hist ai).confidence ≤ 1 ∧
    (∀ e, ai = Except.error e →
      analyzeLocationFromSensorData recent hist ai = fallbackAnalysis) ∧
    (∀ raw, ai = Except.ok raw → ¬ rawValid raw →
      analyzeLocationFromSensorData recent hist ai = fallbackAnalysis) ∧
    fallbackAnalysis.prediction = "indoor" ∧
    fallbackAnalysis.confidence = 1/10 ∧
    fallbackAnalysis.reasoning ≠ "" := by
  have hfb0 : (0 : Rat) ≤ fallbackAnalysis.confidence := by norm_num [fallbackAnalysis]
  have hfb1 : fallbackAnalysis.confidence ≤ 1 := by norm_num [fallbackAnalysis]
  rcases ai with e | raw
  · exact ⟨hfb0, hfb1, fun e' h => rfl, fun raw h => by simp at h, rfl, rfl, by decide⟩
  · have hbounds : 0 ≤ (analyzeLocationFromSensorData recent hist (Except.ok raw)).confidence ∧
        (analyzeLocationFromSensorData recent hist (Except.ok raw)).confidence ≤ 1 := by
      unfold analyzeLocationFromSensorData
      dsimp only
      by_cases hpred : raw.prediction = "indoor" ∨ raw.prediction = "outdoor"
      · rw [if_neg (not_not_intro hpred)]
        cases hc : raw.confidence with
        | none => exact ⟨hfb0, hfb1⟩
        | some c =>
          dsimp only
          by_cases hcc : c < 0 ∨ c > 1
          · rw [if_pos hcc]
            exact ⟨hfb0, hfb1⟩
          · rw [if_neg hcc]
            push_neg at hcc
            exact ⟨hcc.1, hcc.2⟩
      · rw [if_pos hpred]
        exact ⟨hfb0, hfb1⟩
    refine ⟨hbounds.1, hbounds.2, fun e h => by simp at h, ?_, rfl, rfl, by decide⟩
    intro raw' h hinv
    have hr : raw' = raw := by
      injection h with h'
      exact h'.symm
    subst hr
    unfold analyzeLocationFromSensorData
    dsimp only
    by_cases hpred : raw'.prediction = "indoor" ∨ raw'.prediction = "outdoor"
    · rw [if_neg (not_not_intro hpred)]
      cases hc : raw'.confidence with
      | none => rfl
      | some c =>
        dsimp only
        by_cases hcc : c < 0 ∨ c > 1
        · rw [if_pos hcc]
        · exfalso
          push_neg at hcc
          exact hinv ⟨hpred, c, hc, hcc.1, hcc.2⟩
    · rw [if_pos hpred]

/-- C9 witness: the analysis theorem instantiated at a failing AI call on
empty inputs. -/
theorem C9_witness :
    analyzeLocationFromSensorData [] [] (Except.error ()) = fallbackAnalysis :=
  (C9_analysis_total_and_bounded [] [] (Except.error ())).2.2.1 () rfl

/-- C10: getLatestReading is exactly the head of getRecentReadings with
limit 1; it is absent precisely when the device has no stored readings; when
present it is a newest reading of the device by timestamp; and the public
latest-reading endpoint answers the not-found error precisely in the
no-readings case and the reading itself otherwise. -/
theorem C10_latest_reading_spec (s : MemStorage) (d : String) :
    getLatestReading s d = (getRecentReadings s d 1).head? ∧
    (getLatestReading s d = none ↔ ∀ r ∈ readingsList s, r.deviceId ≠ d) ∧
    (∀ r, getLatestReading s d = some r →
      ∀ x ∈ readingsList s, x.deviceId = d → x.timestamp ≤ r.timestamp) ∧
    (apiGetLatestReading s d = Except.error "No readings found"
      ↔ getLatestReading s d = none) ∧
    (∀ r, getLatestReading s d = some r → apiGetLatestReading s d = Except.ok r) := by
  refine ⟨rfl, ?_, ?_, ?_, ?_⟩
  · unfold getLatestReading getRecentReadings
    rw [List.head?_eq_none_iff, take_one_eq_nil_iff, sortDescBy_eq_nil_iff,
      List.filter_eq_nil_iff]
    constructor
    · intro h r hr hrd
      exact h r hr (beq_iff_eq.mpr hrd)
    · intro h r hr hbeq
      exact h r hr (eq_of_beq hbeq)
  · intro r hr x hx hxd
    unfold getLatestReading getRecentReadings at hr
    have hxf : x ∈ (readingsList s).filter (fun q => q.deviceId == d) :=
      List.mem_filter.mpr ⟨hx, beq_iff_eq.mpr hxd⟩
    have hxs := (mem_sortDescBy (fun q => q.timestamp) x _).mpr hxf
    cases hsort : sortDescBy (fun q => q.timestamp)
        ((readingsList s).filter (fun q => q.deviceId == d)) with
    | nil =>
      rw [hsort] at hr
      simp at hr
    | cons y t =>
      rw [hsort] at hr
      simp only [List.take, List.take_nil, List.head?] at hr
      have hy : y = r := by
        injection hr
      subst hy
      rw [hsort] at hxs
      have hpw := pairwise_sortDescBy (fun q => q.timestamp)
        ((readingsList s).filter (fun q => q.deviceId == d))
      rw [hsort] at hpw
      rcases List.mem_cons.mp hxs with rfl | hxt
      · exact le_refl _
      · exact List.rel_of_pairwise_cons hpw hxt
  · unfold apiGetLatestReading
    cases h : getLatestReading s d <;> simp
  · intro r hr
    unfold apiGetLatestReading
    rw [hr]

/-- C10 witness: the latest-reading theorem instantiated at a one-reading
store. -/
theorem C10_witness :
    getLatestReading (createSensorReading memEmpty (plainIns "A") 3).2 "A"
      = (getRecentReadings (createSensorReading memEmpty (plainIns "A") 3).2 "A" 1).head? :=
  (C10_latest_reading_spec (createSensorReading memEmpty (plainIns "A") 3).2 "A").1

end SensorStream
